import Mathlib

/-!
A shallow embedding of the core of `kobodl` (kobo-book-downloader): the
authenticated Kobo store client in `kobodl/kobo.py`, the user/identity data
model in `kobodl/settings.py`, and the batch-download driver in
`kobodl/actions.py`.  Side-effecting parts (HTTP, filesystem) are modelled by
explicit server-response parameters, request traces and an explicit
filesystem state; Python exceptions are modelled with `Except` / `Bool`
failure flags.
-/

namespace Kobodl

/-! ## Identity data model (`settings.py`, class `User`) -/

/-- `settings.User`: per-user identity and token material.  All fields are
strings defaulting to the empty string. -/
structure User where
  Email : String := ""
  DeviceId : String := ""
  SerialNumber : String := ""
  AccessToken : String := ""
  RefreshToken : String := ""
  UserId : String := ""
  UserKey : String := ""
  deriving Repr, DecidableEq

/-- `User.AreAuthenticationSettingsSet`: device id and both tokens non-empty. -/
def User.AreAuthenticationSettingsSet (u : User) : Bool :=
  decide (0 < u.DeviceId.length) && decide (0 < u.AccessToken.length)
    && decide (0 < u.RefreshToken.length)

/-! ## Library pagination (`Kobo.GetMyBookList` / `Kobo.__GetMyBookListPage`)

A page response from the `library_sync` endpoint carries a JSON list of
entitlements (modelled opaquely as `List Nat`) and the two synchronization
headers `x-kobo-sync` and `x-kobo-synctoken` (absent headers are `none`). -/

structure PageResp where
  books : List Nat
  syncHeader : Option String
  syncTokenHeader : Option String
  deriving Repr, DecidableEq

/-- The continuation token computed by `__GetMyBookListPage` from a response:
empty unless the `x-kobo-sync` header is `"continue"`, in which case it is the
`x-kobo-synctoken` header (defaulting to empty). -/
def nextSyncToken (r : PageResp) : String :=
  if r.syncHeader = some "continue" then r.syncTokenHeader.getD "" else ""

/-- Errors surfaced by the client (Python exception classes). -/
inductive AuthError where
  | notAuthenticated
  | protocolError
  | invariantError
  deriving Repr, DecidableEq

/-- The `while True` loop of `GetMyBookList`, with the server modelled as the
list of page responses it returns, in request order.  Returns the accumulated
book list together with the number of page requests performed. -/
def bookListLoop : List PageResp → List Nat × Nat
  | [] => ([], 0)
  | r :: rest =>
    if nextSyncToken r = "" then (r.books, 1)
    else (r.books ++ (bookListLoop rest).1, (bookListLoop rest).2 + 1)

/-- `Kobo.GetMyBookList`: raises `NotAuthenticatedException` up front when the
user's authentication settings are not set, otherwise runs the pagination
loop starting from the empty sync token. -/
def GetMyBookList (u : User) (responses : List PageResp) :
    Except AuthError (List Nat × Nat) :=
  if ¬ u.AreAuthenticationSettingsSet then .error .notAuthenticated
  else .ok (bookListLoop responses)

/-- A server that yields exactly these pages: every response before the last
carries a continuation token, and the last one carries the empty token. -/
def pagesThenStop : List PageResp → Bool
  | [] => false
  | [r] => decide (nextSyncToken r = "")
  | r :: rest => decide (nextSyncToken r ≠ "") && pagesThenStop rest

/-! ## Wishlist pagination (`Kobo.GetMyWishList`) -/

/-- A page response from the `user_wishlist` endpoint: the `Items` list and
the `TotalPageCount` field. -/
structure WishResp where
  items : List Nat
  totalPageCount : Nat
  deriving Repr, DecidableEq

/-- The `while True` loop of `GetMyWishList`: requests page `idx`, extends the
accumulated items, then stops when `idx + 1` reaches the reported total page
count.  The server is modelled as its responses in request order; the result
carries the number of requests performed. -/
def wishListLoop : List WishResp → Nat → List Nat × Nat
  | [], _ => ([], 0)
  | r :: rest, idx =>
    if idx + 1 ≥ r.totalPageCount then (r.items, 1)
    else (r.items ++ (wishListLoop rest (idx + 1)).1,
      (wishListLoop rest (idx + 1)).2 + 1)

/-- `Kobo.GetMyWishList`: unlike `GetMyBookList` there is no authentication
precheck; the loop starts immediately at page index 0. -/
def GetMyWishList (_u : User) (responses : List WishResp) :
    Except AuthError (List Nat × Nat) :=
  .ok (wishListLoop responses 0)

/-! ## The request layer (`class Request` and the reauthentication hook)

`Request.make_request` opens the request; an HTTP status ≥ 400 raises
`HTTPError`.  In both cases the optional response hook is invoked on a copy
of the response, and a 403 error is retried (recursively, on the same
`Request` object) while `self.retries < self.max_retries` (10), so an initial
send is followed by at most 9 automatic 403 retries.  The reauthentication
hook (`Kobo.__GetReauthenticationHook`) reacts to status 401 by calling
`Kobo.__RefreshAuthentication` (a `Request` with no hooks), writing the new
`Authorization` onto the copied response-header dict `prep['headers']`, and
re-sending `prep['request']` — the original `Request` object, whose stored
urllib request headers are unchanged — with its hooks cleared.

The model below records the trace of sent requests.  `Sent.main a` is a send
of the wrapped request carrying `Authorization` value `a`; `Sent.refresh` is
the token-refresh POST.  The server is a function from the carried
`Authorization` value to a status for the main endpoint, plus the fields of
the refresh endpoint's JSON reply. -/

/-- Current token pair of the user (the mutable part of identity used by the
refresh flow). -/
structure Tok where
  access : String
  refresh : String
  deriving Repr, DecidableEq

/-- One outbound request, as recorded in the trace. -/
inductive Sent where
  | main (auth : String)
  | refresh
  deriving Repr, DecidableEq

/-- Server behaviour: main-endpoint status as a function of the request's
`Authorization` header, and the refresh endpoint's reply. -/
structure Srv where
  mainStatus : String → Nat
  refreshTokenType : String
  refreshAccess : String
  refreshRefresh : String

/-- `make_request` on a `Request` whose hooks have been cleared (or never
set): only the 403 retry loop remains.  `fuel` is the number of retries still
allowed (`max_retries - 1 - retries` at entry). -/
def makeRequestNoHook (srv : Srv) (a : String) (u : Tok) :
    Nat → List Sent × Nat × Tok
  | 0 => ([.main a], srv.mainStatus a, u)
  | fuel + 1 =>
    if srv.mainStatus a = 403 then
      let r := makeRequestNoHook srv a u fuel
      (.main a :: r.1, r.2)
    else ([.main a], srv.mainStatus a, u)

/-- The 401 reaction of the reauthentication hook: refresh the tokens
(`ProtocolError` when the refresh reply's token type is not `Bearer`) and
re-send the same `Request` object with hooks cleared.  The hook stores the
new `Authorization` only on the copied response headers, so the re-sent
request still carries the original value `a`. -/
def hookOn401 (srv : Srv) (a : String) (fuel : Nat) :
    List Sent × Except AuthError (Nat × Tok) :=
  if srv.refreshTokenType ≠ "Bearer" then
    ([.main a, .refresh], .error .protocolError)
  else
    let u' : Tok := ⟨srv.refreshAccess, srv.refreshRefresh⟩
    let r := makeRequestNoHook srv a u' fuel
    (.main a :: .refresh :: r.1, .ok r.2)

/-- `make_request` on a `Request` carrying the reauthentication hook.  On a
401 the hook fires (`hookOn401`); on a 403 the request is retried with the
hook still attached while retries remain. -/
def makeRequestHooked (srv : Srv) (a : String) (u : Tok) :
    Nat → List Sent × Except AuthError (Nat × Tok)
  | 0 =>
    if srv.mainStatus a = 401 then hookOn401 srv a 0
    else ([.main a], .ok (srv.mainStatus a, u))
  | fuel + 1 =>
    if srv.mainStatus a = 401 then hookOn401 srv a (fuel + 1)
    else if srv.mainStatus a = 403 then
      let r := makeRequestHooked srv a u fuel
      (.main a :: r.1, r.2)
    else ([.main a], .ok (srv.mainStatus a, u))

/-- An authenticated GET as issued by the `Kobo` class: the request carries
`Bearer <access token>` and the reauthentication hook, with the full retry
budget (`max_retries = 10`, i.e. 9 retries after the initial send). -/
def authenticatedGet (srv : Srv) (u : Tok) :
    List Sent × Except AuthError (Nat × Tok) :=
  makeRequestHooked srv ("Bearer " ++ u.access) u 9

/-! ## Descriptor resolution (`Kobo.__GetDownloadInfo`)

A content-URL variant is a JSON object; the keys the code inspects are
`DrmType`, `DRMType`, `DownloadUrl`, `Url` and `UrlFormat`.  Absent keys are
`none`; `dict.get` returns `none`, while `dict[...]` raises `KeyError`. -/

structure Variant where
  drmTypeLower : Option String := none
  drmTypeUpper : Option String := none
  downloadUrl : Option String := none
  url : Option String := none
  urlFormat : Option String := none
  deriving Repr, DecidableEq

/-- `jsonContentUrl.get(key)` for the two DRM keys, in the code's order
`['DrmType', 'DRMType']`. -/
def drmKeyValues (v : Variant) : List (Option String) :=
  [v.drmTypeLower, v.drmTypeUpper]

/-- The known DRM type list `drm_types = ["KDRM", "AdobeDrm"]`. -/
def drm_types : List String := ["KDRM", "AdobeDrm"]

/-- The `hasDrm` list comprehension: the values of the DRM keys whose value
is one of the known DRM types (an absent key never matches). -/
def hasDrmList (v : Variant) : List String :=
  (drmKeyValues v).filterMap fun ov =>
    match ov with
    | some s => if s ∈ drm_types then some s else none
    | none => none

/-- The inner loop over `download_keys = ['DownloadUrl', 'Url']`: the first
key whose value is truthy (present and non-empty). -/
def variantDownloadUrl (v : Variant) : Option String :=
  match v.downloadUrl with
  | some s => if s ≠ "" then some s else
    match v.url with
    | some s' => if s' ≠ "" then some s' else none
    | none => none
  | none =>
    match v.url with
    | some s' => if s' ≠ "" then some s' else none
    | none => none

/-- Errors raised by `__GetDownloadInfo`.  The first three are
`KoboException`s (the spec's `ContentUnavailable`); `keyError` models the
Python `KeyError` escaping from the error-message construction when a variant
lacks the `DRMType` or `UrlFormat` key. -/
inductive DlError where
  | urlNotFound (productId : String)
  | emptyUrlList (productId : String)
  | noSupportedFormat (msg : String)
  | keyError (key : String)
  deriving Repr, DecidableEq

/-- Whether a `DlError` is a `KoboException` (the spec's
`ContentUnavailable`). -/
def DlError.isContentUnavailable : DlError → Bool
  | .urlNotFound _ => true
  | .emptyUrlList _ => true
  | .noSupportedFormat _ => true
  | .keyError _ => false

/-- The message lines appended for each variant when no supported format was
found: `jsonContentUrl["DRMType"]` and `jsonContentUrl["UrlFormat"]` are
`dict[...]` accesses, so a missing key raises `KeyError`. -/
def availableFormatLines : List Variant → Except DlError String
  | [] => .ok ""
  | v :: rest =>
    match v.drmTypeUpper with
    | none => .error (.keyError "DRMType")
    | some d =>
      match v.urlFormat with
      | none => .error (.keyError "UrlFormat")
      | some f =>
        match availableFormatLines rest with
        | .error e => .error e
        | .ok s => .ok ("\nDRMType: " ++ d ++ ", UrlFormat: " ++ f ++ s)

/-- The outer loop of `__GetDownloadInfo` over the variant list: the first
variant with a truthy download URL wins, returning that URL together with its
own `hasDrm` list. -/
def findDownloadUrl : List Variant → Option (String × List String)
  | [] => none
  | v :: rest =>
    match variantDownloadUrl v with
    | some u => some (u, hasDrmList v)
    | none => findDownloadUrl rest

/-- `Kobo.__GetDownloadInfo`, applied to the already-extracted content-URL
list (`Kobo.__getContentUrls` of the relevant metadata: `none` when neither
`ContentUrls` nor `DownloadUrls` is present). -/
def GetDownloadInfo (productId : String) (jsonContentUrls : Option (List Variant)) :
    Except DlError (String × List String) :=
  match jsonContentUrls with
  | none => .error (.urlNotFound productId)
  | some urls =>
    if urls.length = 0 then .error (.emptyUrlList productId)
    else
      match findDownloadUrl urls with
      | some r => .ok r
      | none =>
        match availableFormatLines urls with
        | .error e => .error e
        | .ok lines =>
          .error (.noSupportedFormat
            ("Download URL for supported formats cant be found for product "
              ++ productId ++ ".\nAvailable formats:" ++ lines))

/-! ## Download orchestration (`Kobo.Download`)

The local filesystem is a set of plain-file paths and a set of directory
paths.  `os.path.isfile` inspects only the files; `os.path.exists` both.
The network and DRM collaborators are summarized by an oracle saying which
step raises and whether a partial artifact had been written by then. -/

structure FS where
  files : List String
  dirs : List String
  deriving Repr, DecidableEq

def FS.isfile (fs : FS) (p : String) : Bool := fs.files.contains p

def FS.isdir (fs : FS) (p : String) : Bool := fs.dirs.contains p

def FS.pathexists (fs : FS) (p : String) : Bool := fs.isfile p || fs.isdir p

def FS.addFile (fs : FS) (p : String) : FS := ⟨p :: fs.files, fs.dirs⟩

def FS.removeFile (fs : FS) (p : String) : FS :=
  ⟨fs.files.filter (· ≠ p), fs.dirs⟩

def FS.mkdir (fs : FS) (p : String) : FS := ⟨fs.files, p :: fs.dirs⟩

/-- One audiobook spine item: `Id` and `FileExtension`. -/
structure SpineItem where
  id : Nat
  ext : String
  deriving Repr, DecidableEq

/-- The path a spine item is written to:
`os.path.join(outputPath, str(int(item.Id) + 1) + '.' + ext)`. -/
def spinePath (outputPath : String) (item : SpineItem) : String :=
  outputPath ++ "/" ++ toString (item.id + 1) ++ "." ++ item.ext

/-- Which step of a download raises, and what was on disk by then. -/
structure DlOracle where
  /-- The ebook content request (or the chunked write) raises. -/
  fetchFails : Bool
  /-- When the ebook fetch fails, a partially-written temp file was left. -/
  fetchPartial : Bool
  /-- The audiobook manifest request raises. -/
  manifestFails : Bool
  /-- The request for the spine part at this index raises. -/
  partFails : Option Nat
  /-- The audiobook manifest's spine. -/
  spine : List SpineItem
  /-- `__GetContentAccessBook` (content-keys fetch) raises. -/
  accessFails : Bool
  /-- `KoboDrmRemover.RemoveDrm` raises. -/
  drmFails : Bool
  /-- When DRM removal fails, a partially-written output file was left. -/
  drmPartial : Bool
  deriving Repr, DecidableEq

/-- `Kobo.__DownloadToFile`: fetch the URL and write the bytes to `path`.
Returns the new filesystem and `true` on success, `false` when the step
raised. -/
def downloadToFile (o : DlOracle) (path : String) (fs : FS) : FS × Bool :=
  if o.fetchFails then (if o.fetchPartial then fs.addFile path else fs, false)
  else (fs.addFile path, true)

/-- The per-part loop of `__DownloadAudiobook`, writing each spine item under
the output directory until the oracle's failing part index (if any). -/
def writeSpine (outputPath : String) (failsAt : Option Nat) :
    List SpineItem → Nat → FS → FS × Bool
  | [], _, fs => (fs, true)
  | item :: rest, idx, fs =>
    if failsAt = some idx then (fs, false)
    else writeSpine outputPath failsAt rest (idx + 1)
      (fs.addFile (spinePath outputPath item))

/-- `Kobo.__DownloadAudiobook`: fetch the manifest, create the output
directory when absent, then write each spine part inside it. -/
def downloadAudiobook (o : DlOracle) (outputPath : String) (fs : FS) :
    FS × Bool :=
  if o.manifestFails then (fs, false)
  else
    let fs1 := if fs.isdir outputPath then fs else fs.mkdir outputPath
    writeSpine outputPath o.partFails o.spine 0 fs1

/-- `KoboDrmRemover.RemoveDrm` as seen by the orchestrator: reads the temp
file and writes the decrypted output. -/
def removeDrmStep (o : DlOracle) (outputPath : String) (fs : FS) : FS × Bool :=
  if o.drmFails then
    (if o.drmPartial then fs.addFile outputPath else fs, false)
  else (fs.addFile outputPath, true)

/-- The `try` body of `Kobo.Download` (given the already-resolved `hasDrm`
classification, which `__GetDownloadInfo` produced before the `try`). -/
def downloadTryBody (o : DlOracle) (isAudiobook : Bool) (hasDrm : List String)
    (outputPath : String) (fs : FS) : FS × Bool :=
  let temporaryOutputPath := outputPath ++ ".downloading"
  let step1 :=
    if isAudiobook then downloadAudiobook o outputPath fs
    else downloadToFile o temporaryOutputPath fs
  let fs1 := step1.1
  if ¬ step1.2 then (fs1, false)
  else if hasDrm ≠ [] then
    if hasDrm.head? = some "AdobeDrm" then
      -- copyfile(temporaryOutputPath, outputPath + ".ade"); os.remove(temp)
      ((fs1.addFile (outputPath ++ ".ade")).removeFile temporaryOutputPath, true)
    else
      if o.accessFails then (fs1, false)
      else
        let step2 := removeDrmStep o outputPath fs1
        if ¬ step2.2 then (step2.1, false)
        else (step2.1.removeFile temporaryOutputPath, true)
  else
    if ¬ isAudiobook then
      -- os.rename(temporaryOutputPath, outputPath)
      ((fs1.removeFile temporaryOutputPath).addFile outputPath, true)
    else (fs1, true)

/-- `Kobo.Download`: run the `try` body; on any exception remove the
temporary file and the output path when each is a plain file, then re-raise
(the `false` in the result). -/
def Download (o : DlOracle) (isAudiobook : Bool) (hasDrm : List String)
    (outputPath : String) (fs : FS) : FS × Bool :=
  let temporaryOutputPath := outputPath ++ ".downloading"
  let body := downloadTryBody o isAudiobook hasDrm outputPath fs
  if body.2 then (body.1, true)
  else
    let fs2 := if body.1.isfile temporaryOutputPath
      then body.1.removeFile temporaryOutputPath else body.1
    let fs3 := if fs2.isfile outputPath then fs2.removeFile outputPath else fs2
    (fs3, false)

/-! ## Batch download (`actions.GetBookOrBooks`, batch mode `productId=''`)

Each entitlement from the synced book list is summarized by the facts the
loop body inspects, plus the oracle driving its `Kobo.Download` call. -/

inductive BType where
  | ebook
  | audiobook
  | subscription
  | unknown
  deriving Repr, DecidableEq

structure Entry where
  /-- The entitlement has a `NewEntitlement` key. -/
  hasNewEntitlement : Bool
  btype : BType
  /-- `__MakeFileNameForBook` result (filename without extension). -/
  name : String
  archived : Bool
  productId : String
  /-- DRM classification resolved for this item. -/
  hasDrm : List String
  oracle : DlOracle
  deriving Repr, DecidableEq

/-- Ebooks get the `.epub` extension; audiobooks go in sub-directories. -/
def entryFileName (e : Entry) : String :=
  if e.btype = .ebook then e.name ++ ".epub" else e.name

/-- `outputFilePath = os.path.join(outputPath, fileName)`. -/
def entryOutputPath (outputPath : String) (e : Entry) : String :=
  outputPath ++ "/" ++ entryFileName e

/-- The per-entitlement loop of `GetBookOrBooks` with an empty `productId`
(download-all mode): skip items without `NewEntitlement`, of unknown or
subscription type, whose output path already exists, or archived; otherwise
invoke `Kobo.Download`, catching `KoboException` and continuing.  Returns the
final filesystem and the product ids for which a download was attempted. -/
def batchDownloadLoop (outputPath : String) :
    List Entry → FS → FS × List String
  | [], fs => (fs, [])
  | e :: rest, fs =>
    if ¬ e.hasNewEntitlement then batchDownloadLoop outputPath rest fs
    else if e.btype = .unknown then batchDownloadLoop outputPath rest fs
    else if e.btype = .subscription then batchDownloadLoop outputPath rest fs
    else if fs.pathexists (entryOutputPath outputPath e) then
      batchDownloadLoop outputPath rest fs
    else if e.archived then batchDownloadLoop outputPath rest fs
    else
      let fs1 := (Download e.oracle (e.btype = .audiobook) e.hasDrm
        (entryOutputPath outputPath e) fs).1
      ((batchDownloadLoop outputPath rest fs1).1,
        e.productId :: (batchDownloadLoop outputPath rest fs1).2)

/-! ## Device authentication (`Kobo.AuthenticateDevice`) -/

/-- The fields of the device-auth endpoint's JSON reply that the code
reads. -/
structure DevAuthResp where
  tokenType : String
  accessToken : String
  refreshToken : String
  userKey : String
  deriving Repr, DecidableEq

/-- The identity-dependent parts of the POSTed device credentials. -/
structure DevicePost where
  deviceId : String
  userKey : Option String
  deriving Repr, DecidableEq

/-- The pre-POST identity mutation of `AuthenticateDevice`: when no device id
exists, a fresh device id is generated and both tokens are cleared.  No other
field — in particular not `SerialNumber` — is touched. -/
def prepareDeviceIdentity (u : User) (freshDeviceId : String) : User :=
  if u.DeviceId.length = 0 then
    { u with DeviceId := freshDeviceId, AccessToken := "", RefreshToken := "" }
  else u

/-- `Kobo.AuthenticateDevice`, with the generated uuid and the server reply
as parameters.  Returns the POSTed credentials together with either the
resulting user identity (persisted on success) or the raised error. -/
def AuthenticateDevice (u : User) (userKey freshDeviceId : String)
    (resp : DevAuthResp) : DevicePost × Except AuthError User :=
  let u1 := prepareDeviceIdentity u freshDeviceId
  let post : DevicePost :=
    ⟨u1.DeviceId, if 0 < userKey.length then some userKey else none⟩
  (post,
    if resp.tokenType ≠ "Bearer" then .error .protocolError
    else
      let u2 := { u1 with
        AccessToken := resp.accessToken, RefreshToken := resp.refreshToken }
      if ¬ u2.AreAuthenticationSettingsSet then .error .invariantError
      else .ok (if 0 < userKey.length then { u2 with UserKey := resp.userKey }
        else u2))

/-! ## Theorems -/

theorem bookListLoop_pages : ∀ rs : List PageResp, pagesThenStop rs = true →
    bookListLoop rs = ((rs.map PageResp.books).flatten, rs.length)
  | [], h => by simp [pagesThenStop] at h
  | [r], h => by
    simp only [pagesThenStop, decide_eq_true_eq] at h
    simp [bookListLoop, h]
  | r :: s :: t, h => by
    simp only [pagesThenStop, Bool.and_eq_true, decide_eq_true_eq] at h
    have ih := bookListLoop_pages (s :: t) h.2
    rw [bookListLoop, if_neg h.1, ih]
    simp

/-- C3: `GetMyBookList` raises `NotAuthenticatedException` up front whenever
the identity is not authentication-ready; otherwise, starting from the empty
cursor, it accumulates each page in request order and stops at the first
response with an empty continuation cursor, so for a server returning `N`
pages with the `N`-th carrying an empty cursor it performs exactly `N`
requests and returns the concatenation of all `N` pages. -/
theorem C3_getMyBookList_pagination (u : User) (rs : List PageResp) :
    (u.AreAuthenticationSettingsSet = false →
      GetMyBookList u rs = .error .notAuthenticated) ∧
    (u.AreAuthenticationSettingsSet = true → pagesThenStop rs = true →
      GetMyBookList u rs = .ok ((rs.map PageResp.books).flatten, rs.length)) := by
  constructor
  · intro h
    simp [GetMyBookList, h]
  · intro h hp
    simp [GetMyBookList, h, bookListLoop_pages rs hp]

theorem C3_witness :
    User.AreAuthenticationSettingsSet ⟨"", "d", "", "a", "r", "", ""⟩ = true ∧
    pagesThenStop [⟨[1, 2], some "continue", some "t1"⟩, ⟨[3], none, none⟩]
      = true ∧
    GetMyBookList ⟨"", "d", "", "a", "r", "", ""⟩
        [⟨[1, 2], some "continue", some "t1"⟩, ⟨[3], none, none⟩]
      = .ok ([1, 2, 3], 2) :=
  ⟨by decide, by decide,
    (C3_getMyBookList_pagination ⟨"", "d", "", "a", "r", "", ""⟩
      [⟨[1, 2], some "continue", some "t1"⟩, ⟨[3], none, none⟩]).2
      (by decide) (by decide)⟩

theorem wishListLoop_requests_pos :
    ∀ (rs : List WishResp) (idx : Nat), rs ≠ [] →
      1 ≤ (wishListLoop rs idx).2
  | [], _, h => absurd rfl h
  | r :: rest, idx, _ => by
    simp only [wishListLoop]
    split
    · simp
    · simp

/-- C10: unlike `GetMyBookList`, `GetMyWishList` performs no up-front
authentication check: for every identity, including one that is not
authentication-ready, it does not raise `NotAuthenticatedException` and
issues at least one request (here: a server answering at least one request
yields an `ok` result counting at least one performed request). -/
theorem C10_wishlist_no_auth_precheck (u : User) (rs : List WishResp)
    (h : rs ≠ []) :
    GetMyWishList u rs = .ok (wishListLoop rs 0) ∧
    GetMyWishList u rs ≠ .error .notAuthenticated ∧
    1 ≤ (wishListLoop rs 0).2 := by
  refine ⟨rfl, by simp [GetMyWishList], wishListLoop_requests_pos rs 0 h⟩

theorem C10_witness :
    User.AreAuthenticationSettingsSet ⟨"", "", "", "", "", "", ""⟩ = false ∧
    (GetMyWishList ⟨"", "", "", "", "", "", ""⟩ [⟨[5], 1⟩]
        = .ok (wishListLoop [⟨[5], 1⟩] 0) ∧
      GetMyWishList ⟨"", "", "", "", "", "", ""⟩ [⟨[5], 1⟩]
        ≠ .error .notAuthenticated ∧
      1 ≤ (wishListLoop [⟨[5], 1⟩] 0).2) :=
  ⟨by decide,
    C10_wishlist_no_auth_precheck ⟨"", "", "", "", "", "", ""⟩ [⟨[5], 1⟩]
      (by decide)⟩

/-- C2: evaluation of the reauthentication flow at a server that rejects the
old access token with 401 and accepts any other bearer value with 200.  The
trace shows exactly one `RefreshAuthentication` call and a single retry that
is not itself eligible for another refresh, but the retry carries the
original `Bearer oldtoken` header — not the refreshed one — so it ends in a
final 401 even though the server accepts the new token.  The hook stores the
new `Authorization` on the copied response-header dict instead of the
original request's headers, contradicting its own intent comment
("Refresh the authentication token and use it."). -/
theorem C2_retry_carries_stale_token :
    authenticatedGet
      ⟨fun a => if a = "Bearer oldtoken" then 401 else 200,
        "Bearer", "newtoken", "newrefresh"⟩
      ⟨"oldtoken", "oldrefresh"⟩
      = ([.main "Bearer oldtoken", .refresh, .main "Bearer oldtoken"],
          .ok (401, ⟨"newtoken", "newrefresh"⟩)) := by
  rfl

/-- C5 counterexample: a server that always answers 403 makes the client
re-send the very same request 9 more times (10 sends in all), with no
refresh involved — an automatic retry that is not the 401-refresh retry,
contradicting the claim that no request is ever re-sent automatically for
any other reason or status code. -/
theorem C5_counterexample :
    (authenticatedGet ⟨fun _ => 403, "Bearer", "x", "y"⟩ ⟨"t", "r"⟩).1
      = List.replicate 10 (Sent.main "Bearer t") := by
  rfl

/-- C5 (amended): the 401-refresh retry and the 403 retry loop are the only
automatic retries: a request answered with any status other than 401 and 403
is sent exactly once, while a 403 answer is automatically re-sent until the
retry budget (9 retries after the initial send) is exhausted. -/
theorem C5_amended_retry_policy (srv : Srv) (a : String) (u : Tok)
    (fuel : Nat) :
    (srv.mainStatus a ≠ 401 → srv.mainStatus a ≠ 403 →
      makeRequestHooked srv a u fuel
        = ([.main a], .ok (srv.mainStatus a, u))) ∧
    (srv.mainStatus a = 403 →
      (makeRequestHooked srv a u fuel).1
        = List.replicate (fuel + 1) (Sent.main a)) := by
  induction fuel with
  | zero =>
    constructor
    · intro h1 _
      simp [makeRequestHooked, h1]
    · intro h3
      simp [makeRequestHooked, h3]
  | succ n ih =>
    constructor
    · intro h1 h3
      simp [makeRequestHooked, h1, h3]
    · intro h3
      have h1 : srv.mainStatus a ≠ 401 := by simp [h3]
      simp [makeRequestHooked, h1, h3, ih.2 h3, List.replicate_succ]

theorem C5_amended_witness :
    makeRequestHooked ⟨fun _ => 500, "Bearer", "x", "y"⟩ "A" ⟨"t", "r"⟩ 9
      = ([.main "A"], .ok (500, ⟨"t", "r"⟩)) ∧
    (makeRequestHooked ⟨fun _ => 403, "Bearer", "x", "y"⟩ "B" ⟨"t", "r"⟩ 9).1
      = List.replicate 10 (Sent.main "B") :=
  ⟨(C5_amended_retry_policy ⟨fun _ => 500, "Bearer", "x", "y"⟩ "A"
      ⟨"t", "r"⟩ 9).1 (by decide) (by decide),
    (C5_amended_retry_policy ⟨fun _ => 403, "Bearer", "x", "y"⟩ "B"
      ⟨"t", "r"⟩ 9).2 rfl⟩

theorem findDownloadUrl_skip : ∀ (pre : List Variant),
    (∀ w ∈ pre, variantDownloadUrl w = none) → ∀ rest,
    findDownloadUrl (pre ++ rest) = findDownloadUrl rest
  | [], _, _ => rfl
  | w :: pre', h, rest => by
    have hw : variantDownloadUrl w = none := h w (by simp)
    have ih := findDownloadUrl_skip pre' (fun x hx => h x (by simp [hx])) rest
    simp [findDownloadUrl, hw, ih]

theorem hasDrmList_ne_nil_iff (v : Variant) :
    hasDrmList v ≠ [] ↔
      (v.drmTypeLower = some "KDRM" ∨ v.drmTypeLower = some "AdobeDrm" ∨
        v.drmTypeUpper = some "KDRM" ∨ v.drmTypeUpper = some "AdobeDrm") := by
  rcases v with ⟨dl, du, w, x, y⟩
  cases dl <;> cases du <;>
    simp [hasDrmList, drmKeyValues, drm_types, List.filterMap_cons] <;>
    split_ifs <;> simp_all <;> tauto

/-- C4: for every non-empty variant list, descriptor resolution returns the
URL of the first variant in server order that carries a usable (truthy) URL
field, and marks that variant as DRM-protected (`hasDrm` non-empty, later
split into vendor KDRM vs foreign AdobeDrm) exactly when one of its DRM-type
fields is in the known set `KDRM, AdobeDrm`; any other value, including an
absent field, leaves the `hasDrm` classification empty. -/
theorem C4_first_usable_variant (pid u : String) (pre post : List Variant)
    (v : Variant)
    (hpre : ∀ w ∈ pre, variantDownloadUrl w = none)
    (hv : variantDownloadUrl v = some u) :
    GetDownloadInfo pid (some (pre ++ v :: post)) = .ok (u, hasDrmList v) ∧
    (hasDrmList v ≠ [] ↔
      (v.drmTypeLower = some "KDRM" ∨ v.drmTypeLower = some "AdobeDrm" ∨
        v.drmTypeUpper = some "KDRM" ∨ v.drmTypeUpper = some "AdobeDrm")) := by
  constructor
  · have hfind : findDownloadUrl (pre ++ v :: post) = some (u, hasDrmList v) := by
      rw [findDownloadUrl_skip pre hpre (v :: post)]
      simp [findDownloadUrl, hv]
    have hlen : ¬ (pre ++ v :: post).length = 0 := by simp
    simp [GetDownloadInfo, hfind, hlen]
  · exact hasDrmList_ne_nil_iff v

theorem C4_witness :
    GetDownloadInfo "p" (some [⟨none, none, none, none, none⟩,
        ⟨some "KDRM", none, some "http-book", none, none⟩])
      = .ok ("http-book", ["KDRM"]) :=
  (C4_first_usable_variant "p" "http-book" [⟨none, none, none, none, none⟩]
    [] ⟨some "KDRM", none, some "http-book", none, none⟩
    (by decide) (by decide)).1

theorem findDownloadUrl_eq_none_of_all : ∀ (vs : List Variant),
    (∀ v ∈ vs, variantDownloadUrl v = none) → findDownloadUrl vs = none
  | [], _ => rfl
  | v :: rest, h => by
    have hv := h v (by simp)
    have ih := findDownloadUrl_eq_none_of_all rest (fun x hx => h x (by simp [hx]))
    simp [findDownloadUrl, hv, ih]

theorem all_none_of_findDownloadUrl_eq_none : ∀ (vs : List Variant),
    findDownloadUrl vs = none → ∀ v ∈ vs, variantDownloadUrl v = none
  | [], _, v, hv => absurd hv (by simp)
  | w :: rest, h, v, hv => by
    cases hw : variantDownloadUrl w with
    | some x => simp [findDownloadUrl, hw] at h
    | none =>
      simp only [findDownloadUrl, hw] at h
      rcases List.mem_cons.mp hv with h1 | h1
      · subst h1; exact hw
      · exact all_none_of_findDownloadUrl_eq_none rest h v h1

theorem availableFormatLines_exists_ok : ∀ (vs : List Variant),
    (∀ v ∈ vs, v.drmTypeUpper ≠ none ∧ v.urlFormat ≠ none) →
    ∃ lines, availableFormatLines vs = .ok lines
  | [], _ => ⟨"", rfl⟩
  | v :: rest, h => by
    obtain ⟨hd, hf⟩ := h v (by simp)
    cases hdu : v.drmTypeUpper with
    | none => exact absurd hdu hd
    | some d =>
      cases hfu : v.urlFormat with
      | none => exact absurd hfu hf
      | some f =>
        obtain ⟨lines, hl⟩ := availableFormatLines_exists_ok rest
          (fun x hx => h x (by simp [hx]))
        exact ⟨"\nDRMType: " ++ d ++ ", UrlFormat: " ++ f ++ lines,
          by simp [availableFormatLines, hdu, hfu, hl]⟩

/-- C6 counterexample: a non-empty variant list in which no variant yields a
usable URL, but whose variant carries its DRM type only under the `DrmType`
key (no `DRMType`, no `UrlFormat`).  The error-message construction indexes
`jsonContentUrl["DRMType"]`, so resolution fails with a `KeyError` — not
with the claimed `ContentUnavailable` (`KoboException`). -/
theorem C6_counterexample :
    variantDownloadUrl ⟨some "KDRM", none, none, none, none⟩ = none ∧
    GetDownloadInfo "prod" (some [⟨some "KDRM", none, none, none, none⟩])
      = .error (.keyError "DRMType") ∧
    DlError.isContentUnavailable (.keyError "DRMType") = false :=
  ⟨rfl, rfl, rfl⟩

/-- C6 (amended): resolution fails with `ContentUnavailable` when the variant
list is absent or empty; when a non-empty list has no usable URL it fails
with `ContentUnavailable` listing the available formats provided every
variant carries the `DRMType` and `UrlFormat` keys (otherwise the message
construction itself fails with a `KeyError`); and a `ContentUnavailable`
failure happens only in those cases. -/
theorem C6_amended_error_cases (pid : String) (vs : List Variant) :
    GetDownloadInfo pid none = .error (.urlNotFound pid) ∧
    GetDownloadInfo pid (some []) = .error (.emptyUrlList pid) ∧
    (vs ≠ [] → (∀ v ∈ vs, variantDownloadUrl v = none) →
      (∀ v ∈ vs, v.drmTypeUpper ≠ none ∧ v.urlFormat ≠ none) →
      ∃ lines, availableFormatLines vs = .ok lines ∧
        GetDownloadInfo pid (some vs)
          = .error (.noSupportedFormat
            ("Download URL for supported formats cant be found for product "
              ++ pid ++ ".\nAvailable formats:" ++ lines))) ∧
    (∀ e, GetDownloadInfo pid (some vs) = .error e →
      e.isContentUnavailable = true →
      vs = [] ∨ ∀ v ∈ vs, variantDownloadUrl v = none) := by
  refine ⟨rfl, rfl, ?_, ?_⟩
  · intro hne hall hkeys
    obtain ⟨lines, hl⟩ := availableFormatLines_exists_ok vs hkeys
    have hfind := findDownloadUrl_eq_none_of_all vs hall
    have hlen : ¬ vs.length = 0 := by
      simpa [List.length_eq_zero] using hne
    exact ⟨lines, hl, by simp [GetDownloadInfo, hfind, hlen, hl]⟩
  · intro e he _
    by_cases hvs : vs = []
    · exact Or.inl hvs
    · have hlen : ¬ vs.length = 0 := by
        simpa [List.length_eq_zero] using hvs
      cases hfind : findDownloadUrl vs with
      | some r => simp [GetDownloadInfo, hfind, hlen] at he
      | none => exact Or.inr (all_none_of_findDownloadUrl_eq_none vs hfind)

theorem C6_witness :
    GetDownloadInfo "p" (some [⟨none, some "KDRM", none, none, some "EPUB3"⟩])
      = .error (.noSupportedFormat
        ("Download URL for supported formats cant be found for product "
          ++ "p" ++ ".\nAvailable formats:"
          ++ "\nDRMType: KDRM, UrlFormat: EPUB3")) := by
  obtain ⟨lines, hl, hg⟩ := (C6_amended_error_cases "p"
    [⟨none, some "KDRM", none, none, some "EPUB3"⟩]).2.2.1
    (by decide) (by decide) (by decide)
  have h2 : availableFormatLines [⟨none, some "KDRM", none, none, some "EPUB3"⟩]
      = .ok "\nDRMType: KDRM, UrlFormat: EPUB3" := by rfl
  rw [h2] at hl
  rw [Except.ok.injEq] at hl
  rw [← hl] at hg
  exact hg

theorem isfile_removeFile_self (fs : FS) (p : String) :
    (fs.removeFile p).isfile p = false := by
  simp [FS.isfile, FS.removeFile]

theorem isfile_removeFile_of_not (fs : FS) (p q : String)
    (h : fs.isfile q = false) : (fs.removeFile p).isfile q = false := by
  simp only [FS.isfile, FS.removeFile] at h ⊢
  simp at h ⊢
  intro hq
  exact absurd hq h

theorem isfile_condRemove_self (fs : FS) (p : String) :
    (if fs.isfile p then fs.removeFile p else fs).isfile p = false := by
  by_cases hp : fs.isfile p = true
  · simp [hp, isfile_removeFile_self]
  · simp only [Bool.not_eq_true] at hp
    simp [hp]

theorem isfile_condRemove_of_not (fs : FS) (p q : String)
    (h : fs.isfile q = false) :
    (if fs.isfile p then fs.removeFile p else fs).isfile q = false := by
  by_cases hp : fs.isfile p = true
  · simp [hp, isfile_removeFile_of_not fs p q h]
  · simp only [Bool.not_eq_true] at hp
    simp [hp, h]

/-- C1 counterexample: an audiobook download whose second spine part fails.
The invocation raises (result flag `false`), the cleanup removes nothing
(neither the temporary path nor the target path is a plain file), and the
fully-written first part remains on disk inside the created target
directory — a partial artifact left behind by a failed download. -/
theorem C1_counterexample :
    Download ⟨false, false, false, some 1, [⟨0, "mp3"⟩, ⟨1, "mp3"⟩], false,
        false, false⟩ true [] "out" ⟨[], []⟩
      = (⟨["out/1.mp3"], ["out"]⟩, false) := by
  decide

/-- C1 (amended): on any exception during fetch, classification or DRM
removal, the cleanup removes the temporary file and any plain file at the
target path before the exception propagates, so no file remains at either of
those two paths; a failed audiobook download, however, leaves the created
target directory and its already-written part files in place. -/
theorem C1_amended_cleanup (o : DlOracle) (isAudiobook : Bool)
    (hasDrm : List String) (outputPath : String) (fs : FS)
    (h : (Download o isAudiobook hasDrm outputPath fs).2 = false) :
    (Download o isAudiobook hasDrm outputPath fs).1.isfile
        (outputPath ++ ".downloading") = false ∧
    (Download o isAudiobook hasDrm outputPath fs).1.isfile outputPath
      = false := by
  simp only [Download] at h ⊢
  cases hb : (downloadTryBody o isAudiobook hasDrm outputPath fs).2 with
  | true => rw [hb] at h; simp at h
  | false =>
    rw [hb] at h
    simp only [Bool.false_eq_true, if_false] at h ⊢
    constructor
    · exact isfile_condRemove_of_not _ _ _ (isfile_condRemove_self _ _)
    · exact isfile_condRemove_self _ _

theorem C1_witness :
    (Download ⟨true, true, false, none, [], false, false, false⟩ false []
        "book.epub" ⟨[], []⟩).2 = false ∧
    (Download ⟨true, true, false, none, [], false, false, false⟩ false []
        "book.epub" ⟨[], []⟩).1.isfile ("book.epub" ++ ".downloading")
      = false ∧
    (Download ⟨true, true, false, none, [], false, false, false⟩ false []
        "book.epub" ⟨[], []⟩).1.isfile "book.epub" = false :=
  ⟨by decide,
    (C1_amended_cleanup ⟨true, true, false, none, [], false, false, false⟩
      false [] "book.epub" ⟨[], []⟩ (by decide)).1,
    (C1_amended_cleanup ⟨true, true, false, none, [], false, false, false⟩
      false [] "book.epub" ⟨[], []⟩ (by decide)).2⟩

/-- C9: when a download invocation fails, the cleanup removes any plain file
present at the target output path — including a complete file that already
existed there before the invocation began — so a failed re-download deletes
a previously successful download at the same path. -/
theorem C9_cleanup_deletes_preexisting_target (o : DlOracle)
    (isAudiobook : Bool) (hasDrm : List String) (outputPath : String)
    (fs : FS) (_hpre : fs.isfile outputPath = true)
    (h : (Download o isAudiobook hasDrm outputPath fs).2 = false) :
    (Download o isAudiobook hasDrm outputPath fs).1.isfile outputPath
      = false := by
  simp only [Download] at h ⊢
  cases hb : (downloadTryBody o isAudiobook hasDrm outputPath fs).2 with
  | true => rw [hb] at h; simp at h
  | false =>
    rw [hb] at h
    simp only [Bool.false_eq_true, if_false] at h ⊢
    exact isfile_condRemove_self _ _

theorem C9_witness :
    FS.isfile ⟨["mybook.epub"], []⟩ "mybook.epub" = true ∧
    (Download ⟨true, false, false, none, [], false, false, false⟩ false []
        "mybook.epub" ⟨["mybook.epub"], []⟩).2 = false ∧
    (Download ⟨true, false, false, none, [], false, false, false⟩ false []
        "mybook.epub" ⟨["mybook.epub"], []⟩).1.isfile "mybook.epub"
      = false :=
  ⟨by decide, by decide,
    C9_cleanup_deletes_preexisting_target
      ⟨true, false, false, none, [], false, false, false⟩ false []
      "mybook.epub" ⟨["mybook.epub"], []⟩ (by decide) (by decide)⟩

/-- C8: the batch (download-all) loop is idempotent with respect to
already-downloaded targets: when every item's output path already exists
on disk, every item is skipped before any download attempt, so the
filesystem is unchanged and no download is attempted. -/
theorem C8_batch_skips_existing (outputPath : String) (entries : List Entry)
    (fs : FS)
    (h : ∀ e ∈ entries, fs.pathexists (entryOutputPath outputPath e) = true) :
    batchDownloadLoop outputPath entries fs = (fs, []) := by
  induction entries with
  | nil => rfl
  | cons e rest ih =>
    have he := h e (List.mem_cons_self e rest)
    have ihr := ih (fun x hx => h x (List.mem_cons_of_mem e hx))
    by_cases h1 : e.hasNewEntitlement = true
    · by_cases h2 : e.btype = BType.unknown
      · simp [batchDownloadLoop, h1, h2, ihr]
      · by_cases h3 : e.btype = BType.subscription
        · simp [batchDownloadLoop, h1, h2, h3, ihr]
        · simp [batchDownloadLoop, h1, h2, h3, he, ihr]
    · simp [batchDownloadLoop, h1, ihr]

theorem C8_witness :
    batchDownloadLoop "dl"
        [⟨true, .ebook, "B", false, "pid", [],
          ⟨false, false, false, none, [], false, false, false⟩⟩]
        ⟨["dl/B.epub"], []⟩
      = (⟨["dl/B.epub"], []⟩, []) :=
  C8_batch_skips_existing "dl"
    [⟨true, .ebook, "B", false, "pid", [],
      ⟨false, false, false, none, [], false, false, false⟩⟩]
    ⟨["dl/B.epub"], []⟩ (by decide)

/-- C7 counterexample: `AuthenticateDevice` on an identity with an empty
device id and serial number `"SN-old"`.  A fresh device id is stored and the
tokens are replaced, but the resulting identity still carries `"SN-old"`:
no fresh serial number is ever generated (the code never touches
`SerialNumber`), contrary to the claim. -/
theorem C7_counterexample :
    AuthenticateDevice ⟨"e", "", "SN-old", "at", "rt", "", ""⟩ "" "fresh-uuid"
        ⟨"Bearer", "na", "nr", "uk"⟩
      = (⟨"fresh-uuid", none⟩,
          .ok ⟨"e", "fresh-uuid", "SN-old", "na", "nr", "", ""⟩) := by
  rfl

/-- C7 (amended): when the identity's device id is empty,
`AuthenticateDevice` generates a fresh device identifier and clears both
tokens before posting, leaving the serial number untouched; on success it
stores the returned access and refresh tokens, fails with `ProtocolError`
when the returned token type is not the bearer scheme, and with
`InvariantError` when the authentication fields remain unset afterward. -/
theorem C7_amended_device_auth (u : User) (userKey freshId : String)
    (resp : DevAuthResp) :
    (u.DeviceId = "" →
      prepareDeviceIdentity u freshId
        = { u with DeviceId := freshId, AccessToken := "", RefreshToken := "" }
      ∧ (AuthenticateDevice u userKey freshId resp).1.deviceId = freshId) ∧
    (prepareDeviceIdentity u freshId).SerialNumber = u.SerialNumber ∧
    (resp.tokenType ≠ "Bearer" →
      (AuthenticateDevice u userKey freshId resp).2 = .error .protocolError) ∧
    (resp.tokenType = "Bearer" →
      ¬ User.AreAuthenticationSettingsSet
          { prepareDeviceIdentity u freshId with
            AccessToken := resp.accessToken,
            RefreshToken := resp.refreshToken } = true →
      (AuthenticateDevice u userKey freshId resp).2 = .error .invariantError) ∧
    (resp.tokenType = "Bearer" → userKey = "" →
      User.AreAuthenticationSettingsSet
          { prepareDeviceIdentity u freshId with
            AccessToken := resp.accessToken,
            RefreshToken := resp.refreshToken } = true →
      (AuthenticateDevice u userKey freshId resp).2
        = .ok { prepareDeviceIdentity u freshId with
            AccessToken := resp.accessToken,
            RefreshToken := resp.refreshToken }) := by
  refine ⟨?_, ?_, ?_, ?_, ?_⟩
  · intro h
    constructor
    · simp [prepareDeviceIdentity, h]
    · simp [AuthenticateDevice, prepareDeviceIdentity, h]
  · simp only [prepareDeviceIdentity]
    split <;> rfl
  · intro h
    simp [AuthenticateDevice, h]
  · intro hb hready
    simp [AuthenticateDevice, hb, hready]
  · intro hb hk hready
    simp [AuthenticateDevice, hb, hk, hready]

theorem C7_witness :
    (AuthenticateDevice ⟨"e", "", "SN", "", "", "", ""⟩ "" "f"
        ⟨"Bearer", "A", "R", "K"⟩).2
      = .ok { prepareDeviceIdentity ⟨"e", "", "SN", "", "", "", ""⟩ "f" with
          AccessToken := "A", RefreshToken := "R" } :=
  (C7_amended_device_auth ⟨"e", "", "SN", "", "", "", ""⟩ "" "f"
    ⟨"Bearer", "A", "R", "K"⟩).2.2.2.2 rfl rfl (by decide)

end Kobodl
